import Mathlib

/-!
# Verification of the dynamic-window lag-pair pipeline

This file is a shallow embedding, in Lean 4, of the core data-preparation
logic of `src/data_prep_dynamic_windows.py`: the count parser, the
timestamp extractor, the per-image cell aggregator, the three external
metric queriers (temperature, wind, sun exposure), the day-sequence
assignment of the daily aggregator, and the dynamic-window lag-pair
builder.  Machine floats are modelled as exact rationals (`ℚ`);
`datetime` values are modelled as integer seconds and calendar dates as
integer day numbers, so that a 24-hour `timedelta` is `24 * 3600`
seconds and a one-day date difference is `1`.  Fallible code
(`try`/`except`, `raise ValueError`) is modelled with `Except`/`Option`.
The transcendental transforms (`x ** (1/3)`, `log`) are stated over `ℝ`
directly in the theorems about the embedded records.
-/

/-! ## Count parser (`_map_count_to_number`, lines 61-86)

Python receives arbitrary text labels, strips surrounding whitespace,
looks the result up in `COUNT_MAPPING`, then tries the range pattern
`^(\d+)-(\d+)$` (returning the number before the hyphen), then the plus
pattern `^(\d+)\+$` (returning the number before the plus), then a
literal float conversion, and finally raises `ValueError`.  A `None`
input is mapped to `0.0` up front.  Strings are modelled as `List Char`;
the result float as `ℚ`; the raised `ValueError` as `Except.error`
carrying the offending label. -/

/-- Numeric value of a digit character (`'0'` ↦ 0, ..., `'9'` ↦ 9). -/
def dval (c : Char) : ℕ := c.toNat - 48

/-- Value of a digit string read in base 10, as `int(s)` / `float(s)`
would produce for an all-digit string. -/
def digitsToNat (ds : List Char) : ℕ :=
  ds.foldl (fun n c => 10 * n + dval c) 0

/-- Python `str.strip()`: drop whitespace from both ends.  (Modelled
with `Char.isWhitespace`; exotic Unicode whitespace differences do not
matter for any verified claim.) -/
def stripChars (cs : List Char) : List Char :=
  ((cs.dropWhile Char.isWhitespace).reverse.dropWhile Char.isWhitespace).reverse

/-- The regex `^(\d+)-(\d+)$`: succeeds iff the string is a nonempty
digit run, a hyphen, and a nonempty digit run, returning the two runs.
(The greedy `\d+` takes every digit before the hyphen, which for this
anchored pattern is exactly `takeWhile isDigit`.) -/
def parseRangeLabel (cs : List Char) : Option (List Char × List Char) :=
  let d1 := cs.takeWhile Char.isDigit
  let rest := cs.dropWhile Char.isDigit
  if d1 = [] then none
  else
    match rest with
    | '-' :: rest2 =>
      let d2 := rest2.takeWhile Char.isDigit
      if d2 ≠ [] ∧ rest2.dropWhile Char.isDigit = [] then some (d1, d2) else none
    | _ => none

/-- The regex `^(\d+)\+$`: a nonempty digit run followed by a single
`'+'` at the end of the string. -/
def parsePlusLabel (cs : List Char) : Option (List Char) :=
  let d1 := cs.takeWhile Char.isDigit
  let rest := cs.dropWhile Char.isDigit
  if d1 ≠ [] ∧ rest = ['+'] then some d1 else none

/-- Python `float(s)` restricted to the forms `[+-]digits`,
`[+-]digits.digits`, `[+-].digits`, `[+-]digits.` — the shapes that can
reach the fallback branch of the count parser.  (Exponents, `inf`,
`nan` and underscore separators are not modelled; no verified claim
reaches them.) -/
def parseUnsignedFloat (cs : List Char) : Option ℚ :=
  let ip := cs.takeWhile Char.isDigit
  match cs.dropWhile Char.isDigit with
  | [] => if ip = [] then none else some (digitsToNat ip)
  | '.' :: rest =>
    let fp := rest.takeWhile Char.isDigit
    if rest.dropWhile Char.isDigit = [] ∧ (ip ≠ [] ∨ fp ≠ []) then
      some ((digitsToNat ip : ℚ) + (digitsToNat fp : ℚ) / (10 ^ fp.length))
    else none
  | _ => none

/-- Python `float(s)` with an optional leading sign. -/
def parseFloatLit (cs : List Char) : Option ℚ :=
  match cs with
  | '-' :: rest => (parseUnsignedFloat rest).map (fun q => -q)
  | '+' :: rest => parseUnsignedFloat rest
  | _ => parseUnsignedFloat cs

/-- `DailyButterflyProcessor._map_count_to_number`.  The five
`COUNT_MAPPING` entries (`'0' ↦ 0`, `'1-9' ↦ 1`, `'10-99' ↦ 10`,
`'100-999' ↦ 100`, `'1000+' ↦ 1000`) are checked first, then the range
pattern, the plus pattern, and literal float conversion; an unparsable
label raises (`Except.error`).  A `None` input returns `0.0`. -/
def mapCountToNumber (countText : Option (List Char)) : Except (List Char) ℚ :=
  match countText with
  | none => .ok 0
  | some raw =>
    let s := stripChars raw
    if s = ['0'] then .ok 0
    else if s = ['1', '-', '9'] then .ok 1
    else if s = ['1', '0', '-', '9', '9'] then .ok 10
    else if s = ['1', '0', '0', '-', '9', '9', '9'] then .ok 100
    else if s = ['1', '0', '0', '0', '+'] then .ok 1000
    else
      match parseRangeLabel s with
      | some (d1, _) => .ok (digitsToNat d1)
      | none =>
        match parsePlusLabel s with
        | some d1 => .ok (digitsToNat d1)
        | none =>
          match parseFloatLit s with
          | some v => .ok v
          | none => .error raw

/-! ## Timestamp extractor (`_extract_timestamp_from_filename`, lines 88-98)

Python runs `re.search(r'_(\d{14})', filename)` — the leftmost
occurrence of an underscore immediately followed by at least fourteen
digits, capturing exactly the first fourteen — and then parses the
captured group with `datetime.strptime(s, '%Y%m%d%H%M%S')`, returning
`None` when the search or the parse fails. -/

/-- A parsed `datetime`: the six timestamp fields. -/
structure Timestamp where
  year : ℕ
  month : ℕ
  day : ℕ
  hour : ℕ
  minute : ℕ
  second : ℕ
deriving DecidableEq

/-- Gregorian leap-year rule, as used by `datetime`. -/
def isLeapYear (y : ℕ) : Bool :=
  y % 4 = 0 && (y % 100 ≠ 0 || y % 400 = 0)

/-- Number of days in a month, as validated by the `datetime` constructor. -/
def daysInMonth (y m : ℕ) : ℕ :=
  if m = 2 then (if isLeapYear y then 29 else 28)
  else if m = 4 ∨ m = 6 ∨ m = 9 ∨ m = 11 then 30
  else 31

/-- `datetime.strptime(s, '%Y%m%d%H%M%S')` on a fourteen-character
string: the format is fixed-width here (4+2+2+2+2+2), and the
`datetime` constructor validates every field (year ≥ 1, month 1-12,
day within the month, hour ≤ 23, minute ≤ 59, second ≤ 59), raising
`ValueError` (`none`) otherwise. -/
def parse14 (d : List Char) : Option Timestamp :=
  match d with
  | [y1, y2, y3, y4, m1, m2, d1, d2, h1, h2, n1, n2, s1, s2] =>
    let yr := dval y1 * 1000 + dval y2 * 100 + dval y3 * 10 + dval y4
    let mo := dval m1 * 10 + dval m2
    let dy := dval d1 * 10 + dval d2
    let hh := dval h1 * 10 + dval h2
    let mi := dval n1 * 10 + dval n2
    let ss := dval s1 * 10 + dval s2
    if 1 ≤ yr ∧ 1 ≤ mo ∧ mo ≤ 12 ∧ 1 ≤ dy ∧ dy ≤ daysInMonth yr mo ∧
        hh ≤ 23 ∧ mi ≤ 59 ∧ ss ≤ 59 then
      some ⟨yr, mo, dy, hh, mi, ss⟩
    else none
  | _ => none

/-- Character of a single decimal digit value. -/
def digitChar (k : ℕ) : Char := Char.ofNat (48 + k)

/-- Two-digit zero-padded decimal rendering (`%m`, `%d`, `%H`, `%M`, `%S`). -/
def pad2 (n : ℕ) : List Char := [digitChar (n / 10 % 10), digitChar (n % 10)]

/-- Four-digit zero-padded decimal rendering (`%Y` per the `strftime`
documentation). -/
def pad4 (n : ℕ) : List Char :=
  [digitChar (n / 1000 % 10), digitChar (n / 100 % 10),
   digitChar (n / 10 % 10), digitChar (n % 10)]

/-- `ts.strftime('%Y%m%d%H%M%S')`. -/
def formatTimestamp (ts : Timestamp) : List Char :=
  pad4 ts.year ++ pad2 ts.month ++ pad2 ts.day ++
    pad2 ts.hour ++ pad2 ts.minute ++ pad2 ts.second

/-- `re.search(r'_(\d{14})', s)`: scan left to right for an underscore
followed by at least fourteen digits; capture exactly those fourteen. -/
def searchUnderscore14 : List Char → Option (List Char)
  | [] => none
  | c :: rest =>
    if c = '_' ∧ (rest.take 14).length = 14 ∧ (rest.take 14).all Char.isDigit then
      some (rest.take 14)
    else
      searchUnderscore14 rest

/-- `DailyButterflyProcessor._extract_timestamp_from_filename`: regex
search, then `strptime`; `None` when either step fails.  (Python does
not retry later matches when the first captured group fails to parse,
and neither does this model.) -/
def extractTimestampFromFilename (filename : List Char) : Option Timestamp :=
  match searchUnderscore14 filename with
  | none => none
  | some run => parse14 run

/-- Decomposition of a string into its maximal digit runs, used to state
what "a filename containing exactly one contiguous 14-digit run" means. -/
def digitRunsAux (acc : List Char) : List Char → List (List Char)
  | [] => if acc = [] then [] else [acc.reverse]
  | c :: rest =>
    if c.isDigit then digitRunsAux (c :: acc) rest
    else if acc = [] then digitRunsAux [] rest
    else acc.reverse :: digitRunsAux [] rest

/-- Maximal digit runs of a string, left to right. -/
def digitRuns (cs : List Char) : List (List Char) := digitRunsAux [] cs

/-! ## Cell aggregator (`_process_cells`, lines 123-141)

Python iterates the per-image cell dictionary, parses each cell's
`count` label (`None` and missing keys both yield `0.0`), accumulates
the total, and additionally accumulates the cells flagged `directSun`.
A parse failure propagates (`ValueError`).  The dictionary is modelled
as a list of cells. -/

/-- One grid cell of an image classification: the raw `count` label
(`none` models a missing key or a JSON `null`, both worth `0.0`) and the
`directSun` flag. -/
structure CellData where
  count : Option (List Char)
  directSun : Bool
deriving DecidableEq

/-- Numeric value contributed by one cell. -/
def cellValue (c : CellData) : Except (List Char) ℚ := mapCountToNumber c.count

/-- Accumulating loop of `_process_cells`. -/
def processCellsAux (total directSun : ℚ) :
    List CellData → Except (List Char) (ℚ × ℚ)
  | [] => .ok (total, directSun)
  | c :: rest =>
    match cellValue c with
    | .error e => .error e
    | .ok v =>
      processCellsAux (total + v) (if c.directSun then directSun + v else directSun) rest

/-- `_process_cells`: returns `(total_butterflies, butterflies_direct_sun)`
or propagates the first parse error.  An empty cell dictionary returns
`(0.0, 0.0)`. -/
def processCells (cells : List CellData) : Except (List Char) (ℚ × ℚ) :=
  processCellsAux 0 0 cells

/-- The property "this cell's label, if it parses at all, parses to a
non-negative value", decidably. -/
def nonnegVal : Except (List Char) ℚ → Prop
  | .ok v => 0 ≤ v
  | .error _ => True

instance : DecidablePred nonnegVal := fun x =>
  match x with
  | .ok v => decidable_of_iff (0 ≤ v) Iff.rfl
  | .error _ => Decidable.isTrue trivial

/-! ## Temperature window querier (`calculate_dynamic_temperature_metrics`, lines 359-419) -/

/-- One row of the full 24/7 temperature table (`temp_24hr_df`):
deployment, timestamp (seconds), and temperature (`none` models `NaN`). -/
structure TempReading where
  deploymentId : String
  timestamp : ℤ
  temperature : Option ℚ
deriving DecidableEq

/-- The pandas selection
`temp_df[(deployment_id == dep) & (timestamp >= start) & (timestamp <= end)]['temperature'].dropna()`:
note both endpoint comparisons are inclusive in the source. -/
def windowTemps (temps : List TempReading) (dep : String) (startTime endTime : ℤ) :
    List ℚ :=
  (temps.filter (fun r =>
      decide (r.deploymentId = dep) && decide (startTime ≤ r.timestamp) &&
        decide (r.timestamp ≤ endTime))).filterMap (fun r => r.temperature)

/-- Maximum of a list of rationals (`none` on the empty list). -/
def listMaxQ : List ℚ → Option ℚ
  | [] => none
  | x :: xs => some (xs.foldl max x)

/-- Minimum of a list of rationals (`none` on the empty list). -/
def listMinQ : List ℚ → Option ℚ
  | [] => none
  | x :: xs => some (xs.foldl min x)

/-- Mean of a list of rationals (`none` on the empty list). -/
def listMeanQ (l : List ℚ) : Option ℚ :=
  if l = [] then none else some (l.sum / l.length)

/-- Result record of the temperature querier; `none` models `np.nan`. -/
structure TempMetrics where
  tempMax : Option ℚ
  tempMin : Option ℚ
  tempMean : Option ℚ
  hoursAbove15C : Option ℚ
  degreeHoursAbove15C : Option ℚ
  tempObsCount : ℕ
  tempDataCoverage : ℚ

/-- `calculate_dynamic_temperature_metrics`: select the window (inclusive
on both ends), drop missing values, and compute max/min/mean, hours and
degree-hours above 15 °C (at 0.5 h per 30-minute observation), the
observation count, and the data coverage
`min(1, count / (window_hours * 2))` (coverage 0 when the window has
non-positive expected observations or no data at all). -/
def calcTempMetrics (temps : List TempReading) (dep : String)
    (startTime endTime : ℤ) : TempMetrics :=
  let w := windowTemps temps dep startTime endTime
  if w = [] then
    { tempMax := none, tempMin := none, tempMean := none,
      hoursAbove15C := none, degreeHoursAbove15C := none,
      tempObsCount := 0, tempDataCoverage := 0 }
  else
    let durationHours : ℚ := ((endTime - startTime : ℤ) : ℚ) / 3600
    let expectedObs : ℚ := durationHours * 2
    let coverage : ℚ :=
      if 0 < expectedObs then min 1 ((w.length : ℚ) / expectedObs) else 0
    { tempMax := listMaxQ w
      tempMin := listMinQ w
      tempMean := listMeanQ w
      hoursAbove15C := some (((w.filter (fun x => decide (15 ≤ x))).length : ℚ) * (1 / 2))
      degreeHoursAbove15C :=
        some (((w.filter (fun x => decide (15 < x))).map (fun x => (x - 15) * (1 / 2))).sum)
      tempObsCount := w.length
      tempDataCoverage := coverage }

/-- Selection of the spec's words (§4.5): "filter the full (24/7)
temperature series to that half-open interval" — i.e. `start ≤ t < end`,
a reading at exactly the end time excluded.  Stated only to be compared
against the source's inclusive selection `windowTemps`. -/
def windowTempsSpecHalfOpen (temps : List TempReading) (dep : String)
    (startTime endTime : ℤ) : List ℚ :=
  (temps.filter (fun r =>
      decide (r.deploymentId = dep) && decide (startTime ≤ r.timestamp) &&
        decide (r.timestamp < endTime))).filterMap (fun r => r.temperature)

/-! ## Wind window querier (`calculate_dynamic_wind_metrics`, lines 422-526)

The SQLite query `SELECT time, speed, gust FROM Wind WHERE time BETWEEN
? AND ?` is modelled by filtering a wind table on the inclusive window;
the surrounding `try`/`except` — any connection or query error degrades
to `_get_empty_wind_metrics()` — is modelled by the `Except` input.
`pd.to_numeric(..., errors='coerce')` is modelled by the rows carrying
`Option ℚ` speed/gust fields (`none` = unparsable garbage = `NaN`).
The gust standard deviation and the 0.5-binned modal gust of the source
are not modelled (no verified claim concerns them); the remaining eight
outputs are. -/

/-- One row of a deployment's `Wind` table. -/
structure WindRow where
  time : ℤ
  speed : Option ℚ
  gust : Option ℚ
deriving DecidableEq

/-- Result record of the wind querier; `none` models `np.nan`. -/
structure WindMetrics where
  windAvgSustained : Option ℚ
  windMaxGust : Option ℚ
  windGustSum : Option ℚ
  windGustSumAbove2ms : Option ℚ
  windGustHours : Option ℚ
  windMinutesAbove2ms : ℕ
  windObsCount : ℕ
  windDataCoverage : ℚ
deriving DecidableEq

/-- `_get_empty_wind_metrics()`: the all-missing wind result with
coverage 0. -/
def emptyWindMetrics : WindMetrics :=
  { windAvgSustained := none, windMaxGust := none, windGustSum := none,
    windGustSumAbove2ms := none, windGustHours := none,
    windMinutesAbove2ms := 0, windObsCount := 0, windDataCoverage := 0 }

/-- The `WHERE time BETWEEN ? AND ?` selection (inclusive on both ends;
the `'%Y-%m-%d %H:%M:%S'` string order used by the source agrees with
chronological order).  The query's `ORDER BY time` is omitted: none of
the modelled aggregates depends on row order. -/
def windRowsInWindow (table : List WindRow) (startTime endTime : ℤ) : List WindRow :=
  table.filter (fun r => decide (startTime ≤ r.time) && decide (r.time ≤ endTime))

/-- `calculate_dynamic_wind_metrics`: a failed query (`Except.error`) or
an empty result set returns the empty metrics; otherwise speed/gust are
coerced to numeric, rows with no usable gust reading at all also return
the empty metrics, and the statistics are computed with coverage
`min(1, row_count / (window_hours * 60))`. -/
def calcWindMetrics (source : Except String (List WindRow))
    (startTime endTime : ℤ) : WindMetrics :=
  match source with
  | .error _ => emptyWindMetrics
  | .ok table =>
    let windData := windRowsInWindow table startTime endTime
    if windData = [] then emptyWindMetrics
    else
      let sustained := windData.filterMap (fun r => r.speed)
      let gusts := windData.filterMap (fun r => r.gust)
      if gusts = [] then emptyWindMetrics
      else
        let durationHours : ℚ := ((endTime - startTime : ℤ) : ℚ) / 3600
        let expectedObs : ℚ := durationHours * 60
        let coverage : ℚ :=
          if 0 < expectedObs then min 1 ((windData.length : ℚ) / expectedObs) else 0
        { windAvgSustained := listMeanQ sustained
          windMaxGust := listMaxQ gusts
          windGustSum := some gusts.sum
          windGustSumAbove2ms := some (gusts.filter (fun g => decide (2 < g))).sum
          windGustHours := some (gusts.sum / 60)
          windMinutesAbove2ms := (gusts.filter (fun g => decide (2 ≤ g))).length
          windObsCount := windData.length
          windDataCoverage := coverage }

/-! ## Sun-exposure window querier (`calculate_dynamic_sun_exposure`, lines 529-577) -/

/-- One 30-minute butterfly observation row (`butterfly_df`). -/
structure Obs where
  deploymentId : String
  timestamp : ℤ
  totalButterflies : ℚ
  butterfliesDirectSun : ℚ
  isNight : Bool
deriving DecidableEq

/-- Result record of the sun-exposure querier. -/
structure SunMetrics where
  sumButterfliesDirectSun : ℚ
  butterflyObsCount : ℕ
  butterflyDataCoverage : ℚ

/-- `calculate_dynamic_sun_exposure`: daytime observations of the
deployment inside the (inclusive) window; sum of direct-sun counts;
coverage `min(1, count / expected)` where
`expected = min(window_hours, window_hours * 12/24) * 2`. -/
def calcSunExposure (butterflies : List Obs) (dep : String)
    (startTime endTime : ℤ) : SunMetrics :=
  let daylight := butterflies.filter (fun o =>
    decide (o.deploymentId = dep) && decide (startTime ≤ o.timestamp) &&
      decide (o.timestamp ≤ endTime) && !o.isNight)
  if daylight = [] then
    { sumButterfliesDirectSun := 0, butterflyObsCount := 0, butterflyDataCoverage := 0 }
  else
    let durationHours : ℚ := ((endTime - startTime : ℤ) : ℚ) / 3600
    let estimatedDaylightHours : ℚ := min durationHours (durationHours * (12 / 24))
    let expectedObs : ℚ := estimatedDaylightHours * 2
    let coverage : ℚ :=
      if 0 < expectedObs then min 1 ((daylight.length : ℚ) / expectedObs) else 0
    { sumButterfliesDirectSun := (daylight.map (fun o => o.butterfliesDirectSun)).sum
      butterflyObsCount := daylight.length
      butterflyDataCoverage := coverage }

/-! ## Day-sequence assignment (`create_daily_aggregates_with_sunset`, lines 350-352)

After aggregation the daily table is sorted by `(deployment_id, date)`
and `day_sequence = groupby('deployment_id').cumcount() + 1` is
assigned.  Only the two key columns matter for this step. -/

/-- A daily-aggregate row, reduced to the columns the day-sequence
assignment reads. -/
structure DailyRow where
  deploymentId : String
  date : ℤ
deriving DecidableEq

/-- The `sort_values(['deployment_id', 'date'])` key order. -/
def rowLe (a b : DailyRow) : Prop :=
  a.deploymentId < b.deploymentId ∨ (a.deploymentId = b.deploymentId ∧ a.date ≤ b.date)

instance : DecidableRel rowLe := fun a b =>
  inferInstanceAs (Decidable (_ ∨ _))

instance : IsTotal DailyRow rowLe where
  total a b := by
    rcases lt_trichotomy a.deploymentId b.deploymentId with h | h | h
    · exact Or.inl (Or.inl h)
    · rcases Int.le_total a.date b.date with hd | hd
      · exact Or.inl (Or.inr ⟨h, hd⟩)
      · exact Or.inr (Or.inr ⟨h.symm, hd⟩)
    · exact Or.inr (Or.inl h)

instance : IsTrans DailyRow rowLe where
  trans a b c hab hbc := by
    rcases hab with h1 | ⟨h1, d1⟩
    · rcases hbc with h2 | ⟨h2, d2⟩
      · exact Or.inl (lt_trans h1 h2)
      · exact Or.inl (h2 ▸ h1)
    · rcases hbc with h2 | ⟨h2, d2⟩
      · exact Or.inl (h1 ▸ h2)
      · exact Or.inr ⟨h1.trans h2, d1.trans d2⟩

/-- `groupby('deployment_id').cumcount() + 1` along a row list: each row
is paired with one plus the number of earlier rows of the same
deployment.  `seen` carries the deployments of the rows already passed. -/
def cumcountAux (seen : List String) : List DailyRow → List (DailyRow × ℕ)
  | [] => []
  | r :: rest =>
    (r, seen.count r.deploymentId + 1) :: cumcountAux (r.deploymentId :: seen) rest

/-- Lines 350-352 of the source: sort by `(deployment_id, date)` and
assign `day_sequence` within each deployment. -/
def addDaySequence (rows : List DailyRow) : List (DailyRow × ℕ) :=
  cumcountAux [] (List.insertionSort rowLe rows)

/-! ## Lag-pair builder (`create_dynamic_lag_pairs`, lines 606-819)

One daily-aggregate row per (deployment, day); the builder walks each
deployment's days in date order and emits one `LagRecord` per adjacent
pair that survives the consecutive-day check and the zero-pair
suppression.  The trailing metadata join (line 807) only appends
deployment-metadata columns and the `deployment_day_id_*` display
strings are not modelled; neither affects any verified field. -/

/-- One row of the valid-days daily table, as consumed by the builder. -/
structure Day where
  date : ℤ
  timeOfMax : ℤ
  lastObservationTime : ℤ
  maxButterflies : ℚ
  butterflies95th : ℚ
  butterfliesTop3Mean : ℚ
  sumButterfliesDirectSun : ℚ
  tempAtMaxCount : Option ℚ
  daySequence : ℕ
  daysSinceOct15 : ℤ
deriving DecidableEq

/-- `window_type` argument: `'24hr'` or `'sunset'` (any other string
raises, which the closed inductive type makes unrepresentable). -/
inductive WindowType
  | h24
  | sunset
deriving DecidableEq

/-- Lines 677-682: the window end is the start plus 24 hours in `'24hr'`
mode, and the current day's `last_observation_time` in `'sunset'` mode. -/
def windowEndFor (wt : WindowType) (windowStart : ℤ) (cur : Day) : ℤ :=
  match wt with
  | .h24 => windowStart + 24 * 3600
  | .sunset => cur.lastObservationTime

/-- The emitted lag-pair row (the modelled columns; response-variable
power/log transforms are derived from the stored raw differences and are
stated over `ℝ` in the theorems). -/
structure LagRecord where
  deploymentId : String
  dateT : ℤ
  dateT1 : ℤ
  observationOrderT : ℕ
  daySequence : ℕ
  windowStart : ℤ
  windowEnd : ℤ
  lagDurationHours : ℚ
  tempDataCoverage : ℚ
  windDataCoverage : ℚ
  butterflyDataCoverage : ℚ
  maxButterfliesT : ℚ
  butterflies95thT : ℚ
  butterfliesTop3MeanT : ℚ
  sumButterfliesDirectSunT : ℚ
  timeOfMaxT : ℤ
  maxButterfliesT1 : ℚ
  butterflies95thT1 : ℚ
  butterfliesTop3MeanT1 : ℚ
  timeOfMaxT1 : ℤ
  tempMax : Option ℚ
  tempMin : Option ℚ
  tempMean : Option ℚ
  tempAtMaxCountT1 : Option ℚ
  hoursAbove15C : Option ℚ
  degreeHoursAbove15C : Option ℚ
  windAvgSustained : Option ℚ
  windMaxGust : Option ℚ
  windGustSum : Option ℚ
  windGustSumAbove2ms : Option ℚ
  windGustHours : Option ℚ
  windMinutesAbove2ms : ℕ
  sumButterfliesDirectSun : ℚ
  daysSinceOct15T : ℤ
  butterflyDiff : ℚ
  butterflyDiff95th : ℚ
  butterflyDiffTop3 : ℚ
deriving Inhabited

/-- The record built for one surviving day pair (lines 674-785 of the
source): window definition, the three window queries, and the assembled
row including the raw response differences. -/
def lagRecordFor (depId : String) (windSource : Option (Except String (List WindRow)))
    (butterflies : List Obs) (temps : List TempReading) (wt : WindowType)
    (i : ℕ) (prev cur : Day) : LagRecord :=
  let windowStart := prev.timeOfMax
  let windowEnd := windowEndFor wt windowStart cur
  let tempMetrics := calcTempMetrics temps depId windowStart windowEnd
  let windMetrics :=
    match windSource with
    | some src => calcWindMetrics src windowStart windowEnd
    | none => emptyWindMetrics
  let sunMetrics := calcSunExposure butterflies depId windowStart windowEnd
  { deploymentId := depId
    dateT := cur.date
    dateT1 := prev.date
    observationOrderT := i + 1
    daySequence := cur.daySequence
    windowStart := windowStart
    windowEnd := windowEnd
    lagDurationHours := ((windowEnd - windowStart : ℤ) : ℚ) / 3600
    tempDataCoverage := tempMetrics.tempDataCoverage
    windDataCoverage := windMetrics.windDataCoverage
    butterflyDataCoverage := sunMetrics.butterflyDataCoverage
    maxButterfliesT := cur.maxButterflies
    butterflies95thT := cur.butterflies95th
    butterfliesTop3MeanT := cur.butterfliesTop3Mean
    sumButterfliesDirectSunT := cur.sumButterfliesDirectSun
    timeOfMaxT := cur.timeOfMax
    maxButterfliesT1 := prev.maxButterflies
    butterflies95thT1 := prev.butterflies95th
    butterfliesTop3MeanT1 := prev.butterfliesTop3Mean
    timeOfMaxT1 := prev.timeOfMax
    tempMax := tempMetrics.tempMax
    tempMin := tempMetrics.tempMin
    tempMean := tempMetrics.tempMean
    tempAtMaxCountT1 := prev.tempAtMaxCount
    hoursAbove15C := tempMetrics.hoursAbove15C
    degreeHoursAbove15C := tempMetrics.degreeHoursAbove15C
    windAvgSustained := windMetrics.windAvgSustained
    windMaxGust := windMetrics.windMaxGust
    windGustSum := windMetrics.windGustSum
    windGustSumAbove2ms := windMetrics.windGustSumAbove2ms
    windGustHours := windMetrics.windGustHours
    windMinutesAbove2ms := windMetrics.windMinutesAbove2ms
    sumButterfliesDirectSun := sunMetrics.sumButterfliesDirectSun
    daysSinceOct15T := cur.daysSinceOct15
    butterflyDiff := cur.maxButterflies - prev.maxButterflies
    butterflyDiff95th := cur.butterflies95th - prev.butterflies95th
    butterflyDiffTop3 := cur.butterfliesTop3Mean - prev.butterfliesTop3Mean }

/-- One iteration of the inner loop (lines 660-787): the consecutive-day
check (skip with a warning when the calendar dates are not exactly one
day apart) and the zero-pair suppression, then the record. -/
def mkLagRecord (depId : String) (windSource : Option (Except String (List WindRow)))
    (butterflies : List Obs) (temps : List TempReading) (wt : WindowType)
    (i : ℕ) (prev cur : Day) : Option LagRecord :=
  if cur.date - prev.date ≠ 1 then none
  else if cur.maxButterflies = 0 ∧ prev.maxButterflies = 0 then none
  else some (lagRecordFor depId windSource butterflies temps wt i prev cur)

/-- The adjacent `(i, previous, current)` pairs of a day list, with `i`
the (1-based) loop index of the current day. -/
def adjacentPairs : ℕ → List Day → List (ℕ × Day × Day)
  | _, [] => []
  | _, [_] => []
  | i, a :: b :: rest => (i, a, b) :: adjacentPairs (i + 1) (b :: rest)

/-- Chronological order on days. -/
def dayLe (a b : Day) : Prop := a.date ≤ b.date

instance : DecidableRel dayLe := fun a b =>
  inferInstanceAs (Decidable (a.date ≤ b.date))

/-- One deployment's slice of the input: its id, its valid days, and its
wind data source — `none` models a missing wind database (line 656),
`some (.error e)` a database whose query raises, and `some (.ok table)`
a readable `Wind` table. -/
structure DeploymentInput where
  id : String
  days : List Day
  windSource : Option (Except String (List WindRow))

/-- The per-deployment loop body (lines 643-787): sort the deployment's
days by date, skip deployments with fewer than two days, and emit the
surviving adjacent pairs. -/
def deploymentPairs (inp : DeploymentInput) (butterflies : List Obs)
    (temps : List TempReading) (wt : WindowType) : List LagRecord :=
  let days := List.insertionSort dayLe inp.days
  if days.length < 2 then []
  else
    (adjacentPairs 1 days).filterMap
      (fun p => mkLagRecord inp.id inp.windSource butterflies temps wt p.1 p.2.1 p.2.2)

/-- `create_dynamic_lag_pairs`: all deployments' lag pairs.  (The
source raises when the final list is empty and then joins metadata
columns; neither step changes any emitted record field modelled here.) -/
def createDynamicLagPairs (inputs : List DeploymentInput) (butterflies : List Obs)
    (temps : List TempReading) (wt : WindowType) : List LagRecord :=
  inputs.flatMap (fun inp => deploymentPairs inp butterflies temps wt)

/-- `np.sign` on an exact rational. -/
def npSign (x : ℚ) : ℚ := if 0 < x then 1 else if x < 0 then -1 else 0

/-! ## Supporting lemmas -/

theorem dropWhile_eq_self_of (p : Char → Bool) (l : List Char)
    (h : ∀ c ∈ l, p c = false) : l.dropWhile p = l := by
  cases l with
  | nil => rfl
  | cons c cs => simp [List.dropWhile_cons, h c (by simp)]

theorem stripChars_eq_self (cs : List Char)
    (h : ∀ c ∈ cs, c.isWhitespace = false) : stripChars cs = cs := by
  unfold stripChars
  rw [dropWhile_eq_self_of _ _ h,
    dropWhile_eq_self_of _ _ (fun c hc => h c (List.mem_reverse.mp hc)),
    List.reverse_reverse]

theorem isDigit_not_whitespace {c : Char} (h : c.isDigit = true) :
    c.isWhitespace = false := by
  by_contra hw
  rw [Bool.not_eq_false] at hw
  have hc : ((c = ' ' ∨ c = '\t') ∨ c = '\r') ∨ c = '\n' := by
    simpa [Char.isWhitespace] using hw
  rcases hc with ((rfl | rfl) | rfl) | rfl <;> exact absurd h (by decide)

theorem takeWhile_append_of_all (p : Char → Bool) (a : List Char) (x : Char)
    (r : List Char) (h : ∀ c ∈ a, p c = true) (hx : p x = false) :
    (a ++ x :: r).takeWhile p = a ∧ (a ++ x :: r).dropWhile p = x :: r := by
  induction a with
  | nil => simp [List.takeWhile_cons, List.dropWhile_cons, hx]
  | cons c cs ih =>
    have hc : p c = true := h c (by simp)
    have hrec := ih (fun d hd => h d (by simp [hd]))
    simp [List.takeWhile_cons, List.dropWhile_cons, hc, hrec.1, hrec.2]

theorem takeWhile_all (p : Char → Bool) (l : List Char)
    (h : ∀ c ∈ l, p c = true) : l.takeWhile p = l ∧ l.dropWhile p = [] := by
  induction l with
  | nil => simp
  | cons c cs ih =>
    have hc : p c = true := h c (by simp)
    have hrec := ih (fun d hd => h d (by simp [hd]))
    simp [List.takeWhile_cons, List.dropWhile_cons, hc, hrec.1, hrec.2]

theorem append_sep_inj (x : Char) (a : List Char) :
    ∀ (c b d : List Char), x ∉ a → x ∉ c → a ++ x :: b = c ++ x :: d →
      a = c ∧ b = d := by
  induction a with
  | nil =>
    intro c b d _ hc h
    cases c with
    | nil => simpa using h
    | cons y ys =>
      exfalso
      have h1 : x = y := by simpa using congrArg (fun l => l.headD x) h
      exact hc (h1 ▸ List.mem_cons_self y ys)
  | cons a0 as ih =>
    intro c b d ha hc h
    cases c with
    | nil =>
      exfalso
      have h1 : a0 = x := by simpa using congrArg (fun l => l.headD x) h
      exact ha (h1 ▸ List.mem_cons_self a0 as)
    | cons c0 cs =>
      have h1 : a0 = c0 := by simpa using congrArg (fun l => l.headD x) h
      have h2 : as ++ x :: b = cs ++ x :: d := by simpa using congrArg List.tail h
      have hrec := ih cs b d (fun hm => ha (List.mem_cons_of_mem a0 hm))
        (fun hm => hc (List.mem_cons_of_mem c0 hm)) h2
      exact ⟨by rw [h1, hrec.1], hrec.2⟩

theorem dash_not_mem_of_digits {a : List Char} (h : ∀ c ∈ a, c.isDigit = true) :
    '-' ∉ a := fun hm => absurd (h _ hm) (by decide)

theorem plus_not_mem_of_digits {a : List Char} (h : ∀ c ∈ a, c.isDigit = true) :
    '+' ∉ a := fun hm => absurd (h _ hm) (by decide)

theorem parseRangeLabel_append (a b : List Char) (ha : a ≠ [])
    (had : ∀ c ∈ a, c.isDigit = true) (hb : b ≠ [])
    (hbd : ∀ c ∈ b, c.isDigit = true) :
    parseRangeLabel (a ++ '-' :: b) = some (a, b) := by
  obtain ⟨ht, hd⟩ := takeWhile_append_of_all Char.isDigit a '-' b had (by decide)
  obtain ⟨htb, hdb⟩ := takeWhile_all Char.isDigit b hbd
  simp only [parseRangeLabel, ht, hd]
  rw [if_neg ha]
  simp [htb, hdb, hb]

theorem parseRangeLabel_plus (a : List Char)
    (had : ∀ c ∈ a, c.isDigit = true) :
    parseRangeLabel (a ++ ['+']) = none := by
  obtain ⟨ht, hd⟩ := takeWhile_append_of_all Char.isDigit a '+' [] had (by decide)
  simp only [parseRangeLabel, ht, hd]
  split
  · rfl
  · rfl

theorem parsePlusLabel_append (a : List Char) (ha : a ≠ [])
    (had : ∀ c ∈ a, c.isDigit = true) :
    parsePlusLabel (a ++ ['+']) = some a := by
  obtain ⟨ht, hd⟩ := takeWhile_append_of_all Char.isDigit a '+' [] had (by decide)
  simp only [parsePlusLabel, ht, hd]
  simp [ha]

/-- C7: for any count label of the form `digits-digits` the parser
returns the float value of the run before the hyphen, and for any label
of the form `digits+` it returns the float value of the run before the
plus.  (The hardcoded `COUNT_MAPPING` entries agree with both rules, so
the result is uniform across the dictionary and regex paths.) -/
theorem mapCount_range_and_plus (a b : List Char) (ha : a ≠ [])
    (had : ∀ c ∈ a, c.isDigit = true) (hb : b ≠ [])
    (hbd : ∀ c ∈ b, c.isDigit = true) :
    mapCountToNumber (some (a ++ '-' :: b)) = .ok ((digitsToNat a : ℚ)) ∧
    mapCountToNumber (some (a ++ ['+'])) = .ok ((digitsToNat a : ℚ)) := by
  have hlen : 1 ≤ a.length := List.length_pos.mpr ha
  have hlenb : 1 ≤ b.length := List.length_pos.mpr hb
  have hna : '-' ∉ a := dash_not_mem_of_digits had
  have hpa : '+' ∉ a := plus_not_mem_of_digits had
  constructor
  · have hws : ∀ c ∈ a ++ '-' :: b, c.isWhitespace = false := by
      intro c hc
      rcases List.mem_append.mp hc with h | h
      · exact isDigit_not_whitespace (had c h)
      · rcases List.mem_cons.mp h with rfl | h
        · decide
        · exact isDigit_not_whitespace (hbd c h)
    have h0 : ¬(a ++ '-' :: b = ['0']) := by
      intro h
      have := congrArg List.length h
      simp [List.length_append] at this
      omega
    have h1000 : ¬(a ++ '-' :: b = ['1', '0', '0', '0', '+']) := by
      intro h
      have hm : '-' ∈ a ++ '-' :: b := List.mem_append.mpr (Or.inr (List.mem_cons_self _ _))
      rw [h] at hm
      exact absurd hm (by decide)
    simp only [mapCountToNumber, stripChars_eq_self _ hws]
    rw [if_neg h0]
    by_cases h19 : a ++ '-' :: b = ['1', '-', '9']
    · obtain ⟨hA, hB⟩ := append_sep_inj '-' a ['1'] b ['9'] hna (by decide) h19
      rw [if_pos h19, hA]
      simp [show digitsToNat ['1'] = 1 from by decide]
    · rw [if_neg h19]
      by_cases h1099 : a ++ '-' :: b = ['1', '0', '-', '9', '9']
      · obtain ⟨hA, hB⟩ := append_sep_inj '-' a ['1', '0'] b ['9', '9'] hna (by decide) h1099
        rw [if_pos h1099, hA]
        simp [show digitsToNat ['1', '0'] = 10 from by decide]
      · rw [if_neg h1099]
        by_cases h100 : a ++ '-' :: b = ['1', '0', '0', '-', '9', '9', '9']
        · obtain ⟨hA, hB⟩ :=
            append_sep_inj '-' a ['1', '0', '0'] b ['9', '9', '9'] hna (by decide) h100
          rw [if_pos h100, hA]
          simp [show digitsToNat ['1', '0', '0'] = 100 from by decide]
        · rw [if_neg h100, if_neg h1000, parseRangeLabel_append a b ha had hb hbd]
  · have hws : ∀ c ∈ a ++ ['+'], c.isWhitespace = false := by
      intro c hc
      rcases List.mem_append.mp hc with h | h
      · exact isDigit_not_whitespace (had c h)
      · rcases List.mem_cons.mp h with rfl | h
        · decide
        · exact absurd h (by simp)
    have h0 : ¬(a ++ ['+'] = ['0']) := by
      intro h
      have hm : '+' ∈ a ++ ['+'] := List.mem_append.mpr (Or.inr (by simp))
      rw [h] at hm
      exact absurd hm (by decide)
    have hd1 : ¬(a ++ ['+'] = ['1', '-', '9']) := by
      intro h
      have hm : '+' ∈ a ++ ['+'] := List.mem_append.mpr (Or.inr (by simp))
      rw [h] at hm
      exact absurd hm (by decide)
    have hd2 : ¬(a ++ ['+'] = ['1', '0', '-', '9', '9']) := by
      intro h
      have hm : '+' ∈ a ++ ['+'] := List.mem_append.mpr (Or.inr (by simp))
      rw [h] at hm
      exact absurd hm (by decide)
    have hd3 : ¬(a ++ ['+'] = ['1', '0', '0', '-', '9', '9', '9']) := by
      intro h
      have hm : '+' ∈ a ++ ['+'] := List.mem_append.mpr (Or.inr (by simp))
      rw [h] at hm
      exact absurd hm (by decide)
    simp only [mapCountToNumber, stripChars_eq_self _ hws]
    rw [if_neg h0, if_neg hd1, if_neg hd2, if_neg hd3]
    by_cases h1000 : a ++ ['+'] = ['1', '0', '0', '0', '+']
    · have h1000e : a ++ '+' :: ([] : List Char) = ['1', '0', '0', '0'] ++ '+' :: [] := by
        simpa using h1000
      obtain ⟨hA, _⟩ := append_sep_inj '+' a ['1', '0', '0', '0'] [] [] hpa (by decide) h1000e
      rw [if_pos h1000, hA]
      simp [show digitsToNat ['1', '0', '0', '0'] = 1000 from by decide]
    · rw [if_neg h1000, parseRangeLabel_plus a had, parsePlusLabel_append a ha had]

/-- Concrete application inputs for `mapCount_range_and_plus`. -/
theorem mapCount_range_and_plus_witness :
    mapCountToNumber (some (['1', '0'] ++ '-' :: ['9', '9'])) =
      .ok ((digitsToNat ['1', '0'] : ℚ)) ∧
    mapCountToNumber (some (['1', '0'] ++ ['+'])) =
      .ok ((digitsToNat ['1', '0'] : ℚ)) :=
  mapCount_range_and_plus ['1', '0'] ['9', '9'] (by decide) (by decide)
    (by decide) (by decide)

/-! ## C10: the cell aggregator -/

theorem processCellsAux_bounds (cells : List CellData) :
    ∀ (t0 d0 t d : ℚ), 0 ≤ d0 → d0 ≤ t0 →
      (∀ c ∈ cells, nonnegVal (cellValue c)) →
      processCellsAux t0 d0 cells = .ok (t, d) → 0 ≤ d ∧ d ≤ t := by
  induction cells with
  | nil =>
    intro t0 d0 t d h0 h1 _ h
    simp only [processCellsAux, Except.ok.injEq, Prod.mk.injEq] at h
    rw [← h.1, ← h.2]
    exact ⟨h0, h1⟩
  | cons c cs ih =>
    intro t0 d0 t d h0 h1 hnn h
    simp only [processCellsAux] at h
    cases hcv : cellValue c with
    | error e => rw [hcv] at h; exact absurd h (by simp)
    | ok v =>
      rw [hcv] at h
      dsimp only at h
      have hv : 0 ≤ v := by
        have := hnn c (by simp)
        rw [hcv] at this
        exact this
      by_cases hds : c.directSun = true
      · rw [if_pos hds] at h
        exact ih (t0 + v) (d0 + v) t d (by linarith) (by linarith)
          (fun x hx => hnn x (by simp [hx])) h
      · rw [if_neg hds] at h
        exact ih (t0 + v) d0 t d h0 (by linarith)
          (fun x hx => hnn x (by simp [hx])) h

/-- C10: when every cell label of an image parses to a non-negative
value, `_process_cells` returns a pair with
`0 ≤ butterflies_direct_sun ≤ total_butterflies`, since the direct-sun
total sums exactly the `directSun`-flagged subset of the cells. -/
theorem processCells_directSun_le_total (cells : List CellData) (t d : ℚ)
    (h : processCells cells = .ok (t, d))
    (hnn : ∀ c ∈ cells, nonnegVal (cellValue c)) :
    0 ≤ d ∧ d ≤ t :=
  processCellsAux_bounds cells 0 0 t d le_rfl le_rfl hnn h

/-- A two-cell image: one `directSun` cell labelled `"10-99"` and one
shaded cell labelled `"5"`. -/
def cellsEx : List CellData :=
  [⟨some ['1', '0', '-', '9', '9'], true⟩, ⟨some ['5'], false⟩]

/-- The totals `_process_cells` computes for `cellsEx`. -/
def cellTotals : ℚ × ℚ :=
  match processCells cellsEx with
  | .ok p => p
  | .error _ => (0, 0)

/-- Concrete application of `processCells_directSun_le_total` to `cellsEx`. -/
theorem processCells_directSun_le_total_witness :
    0 ≤ cellTotals.2 ∧ cellTotals.2 ≤ cellTotals.1 :=
  processCells_directSun_le_total cellsEx cellTotals.1 cellTotals.2 rfl (by decide)

/-! ## C3: the timestamp extractor -/

theorem isDigit_toNat {c : Char} (h : c.isDigit = true) :
    48 ≤ c.toNat ∧ c.toNat ≤ 57 := by
  have h2 : ('0' ≤ c ∧ c ≤ '9') := by simpa [Char.isDigit] using h
  obtain ⟨h0, h9⟩ := h2
  rw [Char.le_def] at h0 h9
  exact ⟨h0, h9⟩

theorem digitChar_dval {c : Char} (h : c.isDigit = true) :
    digitChar (dval c) = c := by
  obtain ⟨h0, _⟩ := isDigit_toNat h
  unfold digitChar dval
  rw [show 48 + (c.toNat - 48) = c.toNat from by omega]
  exact Char.ofNat_toNat c

theorem dval_le_nine {c : Char} (h : c.isDigit = true) : dval c ≤ 9 := by
  obtain ⟨h0, h9⟩ := isDigit_toNat h
  unfold dval
  omega

theorem pad2_dval {a b : Char} (ha : a.isDigit = true) (hb : b.isDigit = true) :
    pad2 (dval a * 10 + dval b) = [a, b] := by
  have hva := dval_le_nine ha
  have hvb := dval_le_nine hb
  unfold pad2
  rw [show (dval a * 10 + dval b) / 10 % 10 = dval a from by omega,
    show (dval a * 10 + dval b) % 10 = dval b from by omega,
    digitChar_dval ha, digitChar_dval hb]

theorem pad4_dval {a b c d : Char} (ha : a.isDigit = true) (hb : b.isDigit = true)
    (hc : c.isDigit = true) (hd : d.isDigit = true) :
    pad4 (dval a * 1000 + dval b * 100 + dval c * 10 + dval d) = [a, b, c, d] := by
  have hva := dval_le_nine ha
  have hvb := dval_le_nine hb
  have hvc := dval_le_nine hc
  have hvd := dval_le_nine hd
  unfold pad4
  rw [show (dval a * 1000 + dval b * 100 + dval c * 10 + dval d) / 1000 % 10 = dval a
      from by omega,
    show (dval a * 1000 + dval b * 100 + dval c * 10 + dval d) / 100 % 10 = dval b
      from by omega,
    show (dval a * 1000 + dval b * 100 + dval c * 10 + dval d) / 10 % 10 = dval c
      from by omega,
    show (dval a * 1000 + dval b * 100 + dval c * 10 + dval d) % 10 = dval d
      from by omega,
    digitChar_dval ha, digitChar_dval hb, digitChar_dval hc, digitChar_dval hd]

theorem parse14_format : ∀ (d : List Char) (ts : Timestamp),
    (∀ c ∈ d, c.isDigit = true) → parse14 d = some ts → formatTimestamp ts = d := by
  intro d ts hd h
  rcases d with _ | ⟨y1, d⟩; · simp [parse14] at h
  rcases d with _ | ⟨y2, d⟩; · simp [parse14] at h
  rcases d with _ | ⟨y3, d⟩; · simp [parse14] at h
  rcases d with _ | ⟨y4, d⟩; · simp [parse14] at h
  rcases d with _ | ⟨m1, d⟩; · simp [parse14] at h
  rcases d with _ | ⟨m2, d⟩; · simp [parse14] at h
  rcases d with _ | ⟨d1, d⟩; · simp [parse14] at h
  rcases d with _ | ⟨d2, d⟩; · simp [parse14] at h
  rcases d with _ | ⟨h1, d⟩; · simp [parse14] at h
  rcases d with _ | ⟨h2, d⟩; · simp [parse14] at h
  rcases d with _ | ⟨n1, d⟩; · simp [parse14] at h
  rcases d with _ | ⟨n2, d⟩; · simp [parse14] at h
  rcases d with _ | ⟨s1, d⟩; · simp [parse14] at h
  rcases d with _ | ⟨s2, d⟩; · simp [parse14] at h
  rcases d with _ | ⟨e0, d⟩
  · simp only [parse14] at h
    split at h
    · rw [Option.some.injEq] at h
      subst h
      simp only [formatTimestamp]
      rw [pad4_dval (hd y1 (by simp)) (hd y2 (by simp)) (hd y3 (by simp)) (hd y4 (by simp)),
        pad2_dval (hd m1 (by simp)) (hd m2 (by simp)),
        pad2_dval (hd d1 (by simp)) (hd d2 (by simp)),
        pad2_dval (hd h1 (by simp)) (hd h2 (by simp)),
        pad2_dval (hd n1 (by simp)) (hd n2 (by simp)),
        pad2_dval (hd s1 (by simp)) (hd s2 (by simp))]
      simp
    · simp at h
  · simp [parse14] at h

theorem take_append_full {d q : List Char} (h : d.length = 14) :
    (d ++ q).take 14 = d := by
  rw [List.take_append_eq_append_take]
  simp [h]

theorem searchUnderscore14_cons (c : Char) (rest : List Char) :
    searchUnderscore14 (c :: rest) =
      if c = '_' ∧ (rest.take 14).length = 14 ∧ (rest.take 14).all Char.isDigit = true then
        some (rest.take 14)
      else searchUnderscore14 rest := by
  simp only [searchUnderscore14]

theorem searchUnderscore14_append (p d q : List Char)
    (hp : searchUnderscore14 p = none) (hlen : d.length = 14)
    (hdig : (d.all Char.isDigit) = true) :
    searchUnderscore14 (p ++ '_' :: (d ++ q)) = some d := by
  induction p with
  | nil =>
    rw [List.nil_append, searchUnderscore14_cons, take_append_full hlen,
      if_pos ⟨rfl, hlen, hdig⟩]
  | cons c p ih =>
    rw [searchUnderscore14_cons] at hp
    by_cases hcond : c = '_' ∧ (p.take 14).length = 14 ∧ (p.take 14).all Char.isDigit = true
    · rw [if_pos hcond] at hp
      exact absurd hp (by simp)
    · rw [if_neg hcond] at hp
      have hne : ¬(c = '_' ∧ (((p ++ '_' :: (d ++ q)).take 14).length = 14 ∧
          ((p ++ '_' :: (d ++ q)).take 14).all Char.isDigit = true)) := by
        rintro ⟨rfl, htl, hta⟩
        by_cases hpl : 14 ≤ p.length
        · have htk : (p ++ '_' :: (d ++ q)).take 14 = p.take 14 := by
            rw [List.take_append_eq_append_take,
              show 14 - p.length = 0 from by omega]
            simp
          rw [htk] at htl hta
          exact hcond ⟨rfl, htl, hta⟩
        · have hmem : '_' ∈ (p ++ '_' :: (d ++ q)).take 14 := by
            rw [List.take_append_eq_append_take]
            obtain ⟨k, hk⟩ : ∃ k, 14 - p.length = k + 1 := ⟨14 - p.length - 1, by omega⟩
            rw [hk, List.take_succ_cons]
            exact List.mem_append.mpr (Or.inr (List.mem_cons_self _ _))
          have := List.all_eq_true.mp hta _ hmem
          exact absurd this (by decide)
      rw [List.cons_append, searchUnderscore14_cons, if_neg hne]
      exact ih hp

/-- C3 (amended): the source regex is `_(\d{14})`, so a 14-digit run is
only found when an underscore immediately precedes it, and `strptime`
additionally requires the run to denote a valid timestamp.  For any
filename `p ++ "_" ++ d ++ q` where the prefix `p` contains no
underscore-followed-by-14-digits occurrence of its own, `d` is a
14-digit run, and `d` parses as a valid `%Y%m%d%H%M%S` timestamp,
extraction succeeds and re-formatting the result with `%Y%m%d%H%M%S`
reproduces exactly `d`. -/
theorem extractTimestamp_roundtrip (p d q : List Char)
    (hp : searchUnderscore14 p = none) (hlen : d.length = 14)
    (hdig : ∀ c ∈ d, c.isDigit = true) (ts : Timestamp)
    (hparse : parse14 d = some ts) :
    extractTimestampFromFilename (p ++ '_' :: (d ++ q)) = some ts ∧
    formatTimestamp ts = d := by
  constructor
  · simp only [extractTimestampFromFilename,
      searchUnderscore14_append p d q hp hlen (List.all_eq_true.mpr hdig)]
    exact hparse
  · exact parse14_format d ts hdig hparse

/-- A filename that is exactly one 14-digit run, with no underscore. -/
def fnNoUnderscore : List Char :=
  ['2', '0', '2', '3', '1', '1', '1', '7', '1', '7', '4', '0', '0', '1']

/-- A filename with one 14-digit run preceded by an underscore whose
digits do not form a valid calendar timestamp (month 99). -/
def fnBadDate : List Char :=
  ['_', '9', '9', '9', '9', '9', '9', '9', '9', '9', '9', '9', '9', '9', '9']

/-- C3 (counterexample): both filenames contain exactly one contiguous
14-digit run, yet `_extract_timestamp_from_filename` returns no
timestamp on each — the run in `fnNoUnderscore` is not preceded by an
underscore, and the run in `fnBadDate` is not a valid timestamp — so
extraction is not total on the claimed domain. -/
theorem extractTimestamp_not_total_counterexample :
    (digitRuns fnNoUnderscore).countP (fun run => run.length == 14) = 1 ∧
    extractTimestampFromFilename fnNoUnderscore = none ∧
    (digitRuns fnBadDate).countP (fun run => run.length == 14) = 1 ∧
    extractTimestampFromFilename fnBadDate = none := by decide

/-- The digits of `2023-11-17 17:40:01`. -/
def runEx : List Char :=
  ['2', '0', '2', '3', '1', '1', '1', '7', '1', '7', '4', '0', '0', '1']

/-- The timestamp `2023-11-17 17:40:01`. -/
def tsEx : Timestamp := ⟨2023, 11, 17, 17, 40, 1⟩

/-- Concrete application of `extractTimestamp_roundtrip` to the
filename `IMG_20231117174001.jpg`. -/
theorem extractTimestamp_roundtrip_witness :
    extractTimestampFromFilename
      (['I', 'M', 'G'] ++ '_' :: (runEx ++ ['.', 'j', 'p', 'g'])) = some tsEx ∧
    formatTimestamp tsEx = runEx :=
  extractTimestamp_roundtrip ['I', 'M', 'G'] runEx ['.', 'j', 'p', 'g']
    (by decide) (by decide) (by decide) tsEx (by decide)

/-! ## C4: the temperature window selection -/

/-- C4 (amended): the source filters with `timestamp >= start` **and**
`timestamp <= end`, so the temperature window query selects exactly the
readings of the deployment whose timestamps lie in the **closed**
interval `[start, end]` — a reading with timestamp exactly equal to the
end time is **included** — before dropping missing values and computing
the metrics. -/
theorem windowTemps_mem_iff (temps : List TempReading) (dep : String)
    (startTime endTime : ℤ) (v : ℚ) :
    v ∈ windowTemps temps dep startTime endTime ↔
      ∃ r ∈ temps, r.deploymentId = dep ∧ startTime ≤ r.timestamp ∧
        r.timestamp ≤ endTime ∧ r.temperature = some v := by
  simp only [windowTemps, List.mem_filterMap, List.mem_filter, Bool.and_eq_true,
    decide_eq_true_eq]
  constructor
  · rintro ⟨r, ⟨hr, ⟨hd, hs⟩, he⟩, ht⟩
    exact ⟨r, hr, hd, hs, he, ht⟩
  · rintro ⟨r, hr, hd, hs, he, ht⟩
    exact ⟨r, ⟨hr, ⟨hd, hs⟩, he⟩, ht⟩

/-- A one-row temperature table whose single reading sits exactly at the
window end. -/
def tempsBoundary : List TempReading := [⟨"SC1", 100, some 20⟩]

/-- C4 (counterexample): on `tempsBoundary` with window `[0, 100]` the
source's selection keeps the reading at timestamp 100 (the window end),
while the claimed half-open selection would discard it, so the claim's
"a reading with timestamp exactly equal to the end time is excluded" is
false of the code. -/
theorem windowTemps_boundary_counterexample :
    windowTemps tempsBoundary "SC1" 0 100 = [20] ∧
    windowTempsSpecHalfOpen tempsBoundary "SC1" 0 100 = [] := by decide

/-! ## C6: the wind querier's failure policy -/

/-- C6: a wind query that raises (I/O failure, malformed schema — any
`Except.error`) or returns no rows yields the all-missing
`_get_empty_wind_metrics()` result, whose `wind_data_coverage` is 0;
the error is swallowed by the `try`/`except`, never propagated, and the
function stays total. -/
theorem calcWindMetrics_degrades_to_empty (source : Except String (List WindRow))
    (startTime endTime : ℤ)
    (h : (∃ e, source = .error e) ∨
      (∀ table, source = .ok table → windRowsInWindow table startTime endTime = [])) :
    calcWindMetrics source startTime endTime = emptyWindMetrics ∧
    emptyWindMetrics.windDataCoverage = 0 := by
  refine ⟨?_, rfl⟩
  rcases h with ⟨e, rfl⟩ | hempty
  · rfl
  · cases source with
    | error e => rfl
    | ok table =>
      have hrows := hempty table rfl
      simp [calcWindMetrics, hrows]

/-- Concrete application of `calcWindMetrics_degrades_to_empty` to a
failing query. -/
theorem calcWindMetrics_degrades_to_empty_witness :
    calcWindMetrics (Except.error "disk read failure") 0 3600 = emptyWindMetrics ∧
    emptyWindMetrics.windDataCoverage = 0 :=
  calcWindMetrics_degrades_to_empty (Except.error "disk read failure") 0 3600
    (Or.inl ⟨"disk read failure", rfl⟩)

/-! ## C8: the day-sequence assignment -/

theorem cumcountAux_map_fst (seen : List String) (l : List DailyRow) :
    (cumcountAux seen l).map Prod.fst = l := by
  induction l generalizing seen with
  | nil => rfl
  | cons r rest ih => simp [cumcountAux, ih]

theorem cumcountAux_filter_map (dep : String) :
    ∀ (l : List DailyRow) (seen : List String),
      ((cumcountAux seen l).filter (fun x => decide (x.1.deploymentId = dep))).map
          (fun x => x.2)
        = List.range' (seen.count dep + 1)
            (l.countP (fun r => decide (r.deploymentId = dep))) := by
  intro l
  induction l with
  | nil => intro seen; simp [cumcountAux]
  | cons r rest ih =>
    intro seen
    by_cases hr : r.deploymentId = dep
    · have hp : (fun x : DailyRow × ℕ => decide (x.1.deploymentId = dep))
          (r, seen.count r.deploymentId + 1) = true := by
        simpa using hr
      rw [cumcountAux, List.filter_cons, if_pos hp, List.map_cons,
        List.countP_cons, if_pos (by simpa using hr)]
      rw [ih (r.deploymentId :: seen), hr, List.count_cons_self]
      rfl
    · have hp : (fun x : DailyRow × ℕ => decide (x.1.deploymentId = dep))
          (r, seen.count r.deploymentId + 1) = false := by
        simpa using hr
      rw [cumcountAux, List.filter_cons, if_neg (by simp [hp]), List.countP_cons,
        if_neg (by simpa using hr)]
      rw [ih (r.deploymentId :: seen),
        List.count_cons_of_ne (fun h => hr h.symm)]
      simp

theorem addDaySequence_dates_sorted (rows : List DailyRow) (dep : String) :
    (((addDaySequence rows).filter (fun x => decide (x.1.deploymentId = dep))).map
        (fun x => x.1.date)).Pairwise (· ≤ ·) := by
  have hsorted : List.Pairwise rowLe (List.insertionSort rowLe rows) :=
    List.sorted_insertionSort rowLe rows
  have hfst : (cumcountAux [] (List.insertionSort rowLe rows)).map Prod.fst
      = List.insertionSort rowLe rows := cumcountAux_map_fst _ _
  have hpair : List.Pairwise (fun a b : DailyRow × ℕ => rowLe a.1 b.1)
      (cumcountAux [] (List.insertionSort rowLe rows)) := by
    rw [← hfst] at hsorted
    exact (List.pairwise_map).mp hsorted
  have hfilter := hpair.filter (fun x => decide (x.1.deploymentId = dep))
  have hdate : List.Pairwise (fun a b : DailyRow × ℕ => a.1.date ≤ b.1.date)
      ((cumcountAux [] (List.insertionSort rowLe rows)).filter
        (fun x => decide (x.1.deploymentId = dep))) := by
    refine List.Pairwise.imp_of_mem ?_ hfilter
    intro a b ha hb hr
    have hda : a.1.deploymentId = dep := by
      simpa using (List.mem_filter.mp ha).2
    have hdb : b.1.deploymentId = dep := by
      simpa using (List.mem_filter.mp hb).2
    rcases hr with hlt | ⟨_, hle⟩
    · rw [hda, hdb] at hlt
      exact absurd hlt (lt_irrefl _)
    · exact hle
  exact (List.pairwise_map).mpr hdate

/-- C8: after the sort by `(deployment_id, date)` and the grouped
cumulative count, the `day_sequence` values of any one deployment's
rows, read in chronological order, are exactly `1, 2, ..., n` with `n`
that deployment's number of rows, independent of every other
deployment; and the dates of those rows do appear in chronological
(non-decreasing) order. -/
theorem daySequence_contiguous_range (rows : List DailyRow) (dep : String) :
    (((addDaySequence rows).filter (fun x => decide (x.1.deploymentId = dep))).map
        (fun x => x.2))
      = List.range' 1 (rows.countP (fun r => decide (r.deploymentId = dep))) ∧
    (((addDaySequence rows).filter (fun x => decide (x.1.deploymentId = dep))).map
        (fun x => x.1.date)).Pairwise (· ≤ ·) := by
  constructor
  · rw [addDaySequence, cumcountAux_filter_map dep (List.insertionSort rowLe rows) []]
    rw [List.Perm.countP_eq _ (List.perm_insertionSort rowLe rows)]
    simp
  · exact addDaySequence_dates_sorted rows dep

/-! ## The lag-pair builder: supporting lemmas -/

theorem mkLagRecord_eq_some {depId : String}
    {windSource : Option (Except String (List WindRow))} {butterflies : List Obs}
    {temps : List TempReading} {wt : WindowType} {i : ℕ} {prev cur : Day}
    {r : LagRecord} :
    mkLagRecord depId windSource butterflies temps wt i prev cur = some r ↔
      cur.date - prev.date = 1 ∧
      ¬(cur.maxButterflies = 0 ∧ prev.maxButterflies = 0) ∧
      r = lagRecordFor depId windSource butterflies temps wt i prev cur := by
  unfold mkLagRecord
  by_cases h1 : cur.date - prev.date ≠ 1
  · rw [if_pos h1]
    simp [h1]
  · have h1e : cur.date - prev.date = 1 := not_not.mp h1
    rw [if_neg h1]
    by_cases h2 : cur.maxButterflies = 0 ∧ prev.maxButterflies = 0
    · rw [if_pos h2]
      simp [h1e, h2]
    · rw [if_neg h2]
      simp [h1e, h2, eq_comm]

theorem exists_mkLagRecord_of_mem {inputs : List DeploymentInput}
    {butterflies : List Obs} {temps : List TempReading} {wt : WindowType}
    {r : LagRecord} (h : r ∈ createDynamicLagPairs inputs butterflies temps wt) :
    ∃ inp ∈ inputs, ∃ i prev cur,
      mkLagRecord inp.id inp.windSource butterflies temps wt i prev cur = some r := by
  rw [createDynamicLagPairs, List.mem_flatMap] at h
  obtain ⟨inp, hinp, hr⟩ := h
  refine ⟨inp, hinp, ?_⟩
  simp only [deploymentPairs] at hr
  split at hr
  · exact absurd hr (by simp)
  · rw [List.mem_filterMap] at hr
    obtain ⟨⟨i, prev, cur⟩, _, hmk⟩ := hr
    exact ⟨i, prev, cur, hmk⟩

theorem coverage_bounds (n : ℕ) (expected : ℚ) :
    0 ≤ (if 0 < expected then min 1 ((n : ℚ) / expected) else 0) ∧
      (if 0 < expected then min 1 ((n : ℚ) / expected) else 0) ≤ 1 := by
  by_cases h : 0 < expected
  · rw [if_pos h]
    exact ⟨le_min (by norm_num) (div_nonneg (Nat.cast_nonneg n) h.le), min_le_left 1 _⟩
  · rw [if_neg h]
    norm_num

theorem tempDataCoverage_bounds (temps : List TempReading) (dep : String)
    (startTime endTime : ℤ) :
    0 ≤ (calcTempMetrics temps dep startTime endTime).tempDataCoverage ∧
      (calcTempMetrics temps dep startTime endTime).tempDataCoverage ≤ 1 := by
  simp only [calcTempMetrics]
  split
  · norm_num
  · exact coverage_bounds _ _

theorem windDataCoverage_bounds (source : Except String (List WindRow))
    (startTime endTime : ℤ) :
    0 ≤ (calcWindMetrics source startTime endTime).windDataCoverage ∧
      (calcWindMetrics source startTime endTime).windDataCoverage ≤ 1 := by
  cases source with
  | error e => norm_num [calcWindMetrics, emptyWindMetrics]
  | ok table =>
    simp only [calcWindMetrics]
    split
    · norm_num [emptyWindMetrics]
    · split
      · norm_num [emptyWindMetrics]
      · exact coverage_bounds _ _

theorem windSourceCoverage_bounds
    (windSource : Option (Except String (List WindRow))) (startTime endTime : ℤ) :
    0 ≤ (match windSource with
          | some src => calcWindMetrics src startTime endTime
          | none => emptyWindMetrics).windDataCoverage ∧
      (match windSource with
        | some src => calcWindMetrics src startTime endTime
        | none => emptyWindMetrics).windDataCoverage ≤ 1 := by
  cases windSource with
  | none => norm_num [emptyWindMetrics]
  | some src => exact windDataCoverage_bounds src startTime endTime

theorem butterflyDataCoverage_bounds (butterflies : List Obs) (dep : String)
    (startTime endTime : ℤ) :
    0 ≤ (calcSunExposure butterflies dep startTime endTime).butterflyDataCoverage ∧
      (calcSunExposure butterflies dep startTime endTime).butterflyDataCoverage ≤ 1 := by
  simp only [calcSunExposure]
  split
  · norm_num
  · exact coverage_bounds _ _

theorem geomMean_bounds (a b c : ℚ) (ha : 0 ≤ a ∧ a ≤ 1) (hb : 0 ≤ b ∧ b ≤ 1)
    (hc : 0 ≤ c ∧ c ≤ 1) :
    0 ≤ ((a * b * c : ℚ) : ℝ) ^ ((1 : ℝ) / 3) ∧
    ((a * b * c : ℚ) : ℝ) ^ ((1 : ℝ) / 3) ≤ 1 ∧
    ((a = 0 ∨ b = 0 ∨ c = 0) →
      ((a * b * c : ℚ) : ℝ) ^ ((1 : ℝ) / 3) = 0) := by
  have ha1 : (0 : ℝ) ≤ (a : ℝ) := by exact_mod_cast ha.1
  have ha2 : (a : ℝ) ≤ 1 := by exact_mod_cast ha.2
  have hb1 : (0 : ℝ) ≤ (b : ℝ) := by exact_mod_cast hb.1
  have hb2 : (b : ℝ) ≤ 1 := by exact_mod_cast hb.2
  have hc1 : (0 : ℝ) ≤ (c : ℝ) := by exact_mod_cast hc.1
  have hc2 : (c : ℝ) ≤ 1 := by exact_mod_cast hc.2
  have hp0 : (0 : ℝ) ≤ ((a * b * c : ℚ) : ℝ) := by
    push_cast
    exact mul_nonneg (mul_nonneg ha1 hb1) hc1
  have hp1 : ((a * b * c : ℚ) : ℝ) ≤ 1 := by
    push_cast
    exact mul_le_one₀ (mul_le_one₀ ha2 hb1 hb2) hc1 hc2
  refine ⟨Real.rpow_nonneg hp0 _, Real.rpow_le_one hp0 hp1 (by norm_num), ?_⟩
  intro h0
  have hz : ((a * b * c : ℚ) : ℝ) = 0 := by
    rcases h0 with h | h | h <;> rw [h] <;> push_cast <;> ring
  rw [hz, Real.zero_rpow (by norm_num)]

/-! ## C1, C2, C5: properties of every emitted lag pair -/

/-- C1: for every emitted pair the window start is the previous day's
`time_of_max` (also stored as `time_of_max_t_1`); in `'24hr'` mode the
window end is the window start plus exactly 24 hours, and in `'sunset'`
mode it is the current day's `last_observation_time`. -/
theorem lagPair_window_bounds (depId : String)
    (windSource : Option (Except String (List WindRow))) (butterflies : List Obs)
    (temps : List TempReading) (wt : WindowType) (i : ℕ) (prev cur : Day)
    (r : LagRecord)
    (h : mkLagRecord depId windSource butterflies temps wt i prev cur = some r) :
    r.windowStart = prev.timeOfMax ∧ r.windowStart = r.timeOfMaxT1 ∧
    (wt = WindowType.h24 → r.windowEnd = prev.timeOfMax + 24 * 3600) ∧
    (wt = WindowType.sunset → r.windowEnd = cur.lastObservationTime) := by
  obtain ⟨_, _, rfl⟩ := mkLagRecord_eq_some.mp h
  refine ⟨rfl, rfl, ?_, ?_⟩
  · rintro rfl
    rfl
  · rintro rfl
    rfl

/-- C5: a lag pair is emitted only when the two days are exactly one
calendar day apart (the record's stored dates witness it); pairing is
per-deployment by construction, and a failed consecutive-day check skips
the pair without aborting the run. -/
theorem lagPair_consecutive_days (inputs : List DeploymentInput)
    (butterflies : List Obs) (temps : List TempReading) (wt : WindowType)
    (r : LagRecord) (h : r ∈ createDynamicLagPairs inputs butterflies temps wt) :
    r.dateT - r.dateT1 = 1 := by
  obtain ⟨inp, _, i, prev, cur, hmk⟩ := exists_mkLagRecord_of_mem h
  obtain ⟨h1, _, rfl⟩ := mkLagRecord_eq_some.mp hmk
  exact h1

/-- C2: for every emitted pair each of the three stored coverage
fractions lies in `[0, 1]`, and the completeness score — the geometric
mean `(temp_coverage * wind_coverage * sun_coverage) ** (1/3)` computed
from exactly those stored fractions — lies in `[0, 1]` and equals 0
whenever any one component coverage is 0. -/
theorem metricsComplete_geomMean (inputs : List DeploymentInput)
    (butterflies : List Obs) (temps : List TempReading) (wt : WindowType)
    (r : LagRecord) (h : r ∈ createDynamicLagPairs inputs butterflies temps wt) :
    (0 ≤ r.tempDataCoverage ∧ r.tempDataCoverage ≤ 1) ∧
    (0 ≤ r.windDataCoverage ∧ r.windDataCoverage ≤ 1) ∧
    (0 ≤ r.butterflyDataCoverage ∧ r.butterflyDataCoverage ≤ 1) ∧
    0 ≤ ((r.tempDataCoverage * r.windDataCoverage * r.butterflyDataCoverage : ℚ) : ℝ)
        ^ ((1 : ℝ) / 3) ∧
    ((r.tempDataCoverage * r.windDataCoverage * r.butterflyDataCoverage : ℚ) : ℝ)
        ^ ((1 : ℝ) / 3) ≤ 1 ∧
    ((r.tempDataCoverage = 0 ∨ r.windDataCoverage = 0 ∨ r.butterflyDataCoverage = 0) →
      ((r.tempDataCoverage * r.windDataCoverage * r.butterflyDataCoverage : ℚ) : ℝ)
        ^ ((1 : ℝ) / 3) = 0) := by
  obtain ⟨inp, _, i, prev, cur, hmk⟩ := exists_mkLagRecord_of_mem h
  obtain ⟨_, _, rfl⟩ := mkLagRecord_eq_some.mp hmk
  have ht : 0 ≤ (lagRecordFor inp.id inp.windSource butterflies temps wt i prev
        cur).tempDataCoverage ∧
      (lagRecordFor inp.id inp.windSource butterflies temps wt i prev
        cur).tempDataCoverage ≤ 1 :=
    tempDataCoverage_bounds temps inp.id prev.timeOfMax
      (windowEndFor wt prev.timeOfMax cur)
  have hw : 0 ≤ (lagRecordFor inp.id inp.windSource butterflies temps wt i prev
        cur).windDataCoverage ∧
      (lagRecordFor inp.id inp.windSource butterflies temps wt i prev
        cur).windDataCoverage ≤ 1 :=
    windSourceCoverage_bounds inp.windSource prev.timeOfMax
      (windowEndFor wt prev.timeOfMax cur)
  have hs : 0 ≤ (lagRecordFor inp.id inp.windSource butterflies temps wt i prev
        cur).butterflyDataCoverage ∧
      (lagRecordFor inp.id inp.windSource butterflies temps wt i prev
        cur).butterflyDataCoverage ≤ 1 :=
    butterflyDataCoverage_bounds butterflies inp.id prev.timeOfMax
      (windowEndFor wt prev.timeOfMax cur)
  obtain ⟨g1, g2, g3⟩ := geomMean_bounds _ _ _ ht hw hs
  exact ⟨ht, hw, hs, g1, g2, g3⟩

/-! ## C9: the signed power and log transforms -/

theorem signedCbrt_props (d : ℚ) :
    (0 < d → 0 < ((npSign d : ℚ) : ℝ) * |(d : ℝ)| ^ ((1 : ℝ) / 3)) ∧
    (d < 0 → ((npSign d : ℚ) : ℝ) * |(d : ℝ)| ^ ((1 : ℝ) / 3) < 0) ∧
    (((npSign d : ℚ) : ℝ) * |(d : ℝ)| ^ ((1 : ℝ) / 3) = 0 ↔ d = 0) := by
  rcases lt_trichotomy 0 d with hpos | hzero | hneg
  · have hs : npSign d = 1 := if_pos hpos
    have habs : 0 < |(d : ℝ)| := abs_pos.mpr (by exact_mod_cast ne_of_gt hpos)
    have hA : 0 < |(d : ℝ)| ^ ((1 : ℝ) / 3) := Real.rpow_pos_of_pos habs _
    rw [hs, Rat.cast_one, one_mul]
    refine ⟨fun _ => hA, fun hcon => absurd hcon (not_lt.mpr hpos.le), ?_, ?_⟩
    · intro h0
      exact absurd h0 (ne_of_gt hA)
    · intro h0
      exact absurd h0.symm (ne_of_lt hpos)
  · have hs : npSign d = 0 := by
      rw [← hzero]
      norm_num [npSign]
    rw [hs, Rat.cast_zero, zero_mul]
    exact ⟨fun hcon => absurd hcon (by rw [← hzero] at *; exact lt_irrefl 0),
      fun hcon => absurd hcon (by rw [← hzero]; exact lt_irrefl 0),
      by constructor <;> intro <;> [exact hzero.symm; rfl]⟩
  · have hs : npSign d = -1 := by
      rw [npSign, if_neg (not_lt.mpr hneg.le), if_pos hneg]
    have habs : 0 < |(d : ℝ)| := abs_pos.mpr (by exact_mod_cast ne_of_lt hneg)
    have hA : 0 < |(d : ℝ)| ^ ((1 : ℝ) / 3) := Real.rpow_pos_of_pos habs _
    have hprod : ((npSign d : ℚ) : ℝ) * |(d : ℝ)| ^ ((1 : ℝ) / 3) < 0 := by
      rw [hs]
      push_cast
      nlinarith
    refine ⟨fun hcon => absurd hcon (not_lt.mpr hneg.le), fun _ => hprod, ?_, ?_⟩
    · intro h0
      exact absurd h0 (ne_of_lt hprod)
    · intro h0
      exact absurd h0 (ne_of_lt hneg)

theorem signedLog_props (d : ℚ) :
    (0 < d → 0 < ((npSign d : ℚ) : ℝ) * Real.log (|(d : ℝ)| + 1)) ∧
    (d < 0 → ((npSign d : ℚ) : ℝ) * Real.log (|(d : ℝ)| + 1) < 0) ∧
    (((npSign d : ℚ) : ℝ) * Real.log (|(d : ℝ)| + 1) = 0 ↔ d = 0) := by
  rcases lt_trichotomy 0 d with hpos | hzero | hneg
  · have hs : npSign d = 1 := if_pos hpos
    have habs : 0 < |(d : ℝ)| := abs_pos.mpr (by exact_mod_cast ne_of_gt hpos)
    have hL : 0 < Real.log (|(d : ℝ)| + 1) := Real.log_pos (by linarith)
    rw [hs, Rat.cast_one, one_mul]
    refine ⟨fun _ => hL, fun hcon => absurd hcon (not_lt.mpr hpos.le), ?_, ?_⟩
    · intro h0
      exact absurd h0 (ne_of_gt hL)
    · intro h0
      exact absurd h0.symm (ne_of_lt hpos)
  · have hs : npSign d = 0 := by
      rw [← hzero]
      norm_num [npSign]
    rw [hs, Rat.cast_zero, zero_mul]
    exact ⟨fun hcon => absurd hcon (by rw [← hzero] at *; exact lt_irrefl 0),
      fun hcon => absurd hcon (by rw [← hzero]; exact lt_irrefl 0),
      by constructor <;> intro <;> [exact hzero.symm; rfl]⟩
  · have hs : npSign d = -1 := by
      rw [npSign, if_neg (not_lt.mpr hneg.le), if_pos hneg]
    have habs : 0 < |(d : ℝ)| := abs_pos.mpr (by exact_mod_cast ne_of_lt hneg)
    have hL : 0 < Real.log (|(d : ℝ)| + 1) := Real.log_pos (by linarith)
    have hprod : ((npSign d : ℚ) : ℝ) * Real.log (|(d : ℝ)| + 1) < 0 := by
      rw [hs]
      push_cast
      nlinarith
    refine ⟨fun hcon => absurd hcon (not_lt.mpr hneg.le), fun _ => hprod, ?_, ?_⟩
    · intro h0
      exact absurd h0 (ne_of_lt hprod)
    · intro h0
      exact absurd h0 (ne_of_lt hneg)

/-- C9: for each of the three stored response differences `d` of an
emitted pair, the emitted signed cube-root transform
`sign(d) * |d| ** (1/3)` and the signed log transform
`sign(d) * log(|d| + 1)` are positive exactly when `d` is positive,
negative exactly when `d` is negative, and zero exactly when `d` is
zero. -/
theorem diffTransforms_sign_and_zero (inputs : List DeploymentInput)
    (butterflies : List Obs) (temps : List TempReading) (wt : WindowType)
    (r : LagRecord) (h : r ∈ createDynamicLagPairs inputs butterflies temps wt)
    (d : ℚ) (hd : d ∈ [r.butterflyDiff, r.butterflyDiff95th, r.butterflyDiffTop3]) :
    (0 < d → 0 < ((npSign d : ℚ) : ℝ) * |(d : ℝ)| ^ ((1 : ℝ) / 3)) ∧
    (d < 0 → ((npSign d : ℚ) : ℝ) * |(d : ℝ)| ^ ((1 : ℝ) / 3) < 0) ∧
    (((npSign d : ℚ) : ℝ) * |(d : ℝ)| ^ ((1 : ℝ) / 3) = 0 ↔ d = 0) ∧
    (0 < d → 0 < ((npSign d : ℚ) : ℝ) * Real.log (|(d : ℝ)| + 1)) ∧
    (d < 0 → ((npSign d : ℚ) : ℝ) * Real.log (|(d : ℝ)| + 1) < 0) ∧
    (((npSign d : ℚ) : ℝ) * Real.log (|(d : ℝ)| + 1) = 0 ↔ d = 0) := by
  obtain ⟨c1, c2, c3⟩ := signedCbrt_props d
  obtain ⟨l1, l2, l3⟩ := signedLog_props d
  exact ⟨c1, c2, c3, l1, l2, l3⟩

/-! ## Concrete builder inputs for the witnesses -/

/-- A day with zero butterflies, peak count at 14:00 (50400 s). -/
def day0 : Day :=
  { date := 0, timeOfMax := 50400, lastObservationTime := 61200,
    maxButterflies := 0, butterflies95th := 0, butterfliesTop3Mean := 0,
    sumButterfliesDirectSun := 0, tempAtMaxCount := none,
    daySequence := 1, daysSinceOct15 := 0 }

/-- The next calendar day, with 50 butterflies at peak. -/
def day1 : Day :=
  { date := 1, timeOfMax := 136800, lastObservationTime := 147600,
    maxButterflies := 50, butterflies95th := 45, butterfliesTop3Mean := 40,
    sumButterfliesDirectSun := 20, tempAtMaxCount := none,
    daySequence := 2, daysSinceOct15 := 1 }

/-- One deployment with those two consecutive days and no wind database. -/
def inputs0 : List DeploymentInput := [⟨"SC1", [day0, day1], none⟩]

/-- The single record the builder emits for `inputs0` in `'24hr'` mode
(no temperature, wind, or butterfly observations supplied). -/
def rec24 : LagRecord := (createDynamicLagPairs inputs0 [] [] WindowType.h24).headI

theorem rec24_mem : rec24 ∈ createDynamicLagPairs inputs0 [] [] WindowType.h24 := by
  have h : createDynamicLagPairs inputs0 [] [] WindowType.h24 = [rec24] := rfl
  rw [h]
  exact List.mem_singleton.mpr rfl

/-- The record `mkLagRecord` emits for the pair `(day0, day1)`. -/
def recMk : LagRecord := lagRecordFor "SC1" none [] [] WindowType.h24 1 day0 day1

/-- Concrete application of `lagPair_window_bounds` to the pair
`(day0, day1)` in `'24hr'` mode. -/
theorem lagPair_window_bounds_witness :
    recMk.windowStart = day0.timeOfMax ∧ recMk.windowStart = recMk.timeOfMaxT1 ∧
    recMk.windowEnd = day0.timeOfMax + 24 * 3600 := by
  obtain ⟨h1, h2, h3, _⟩ :=
    lagPair_window_bounds "SC1" none [] [] WindowType.h24 1 day0 day1 recMk rfl
  exact ⟨h1, h2, h3 rfl⟩

/-- Concrete application of `lagPair_consecutive_days` to `rec24`. -/
theorem lagPair_consecutive_days_witness : rec24.dateT - rec24.dateT1 = 1 :=
  lagPair_consecutive_days inputs0 [] [] WindowType.h24 rec24 rec24_mem

/-- Concrete application of `metricsComplete_geomMean` to `rec24`. -/
theorem metricsComplete_geomMean_witness :
    (0 ≤ rec24.tempDataCoverage ∧ rec24.tempDataCoverage ≤ 1) ∧
    (0 ≤ rec24.windDataCoverage ∧ rec24.windDataCoverage ≤ 1) ∧
    (0 ≤ rec24.butterflyDataCoverage ∧ rec24.butterflyDataCoverage ≤ 1) ∧
    0 ≤ ((rec24.tempDataCoverage * rec24.windDataCoverage *
          rec24.butterflyDataCoverage : ℚ) : ℝ) ^ ((1 : ℝ) / 3) ∧
    ((rec24.tempDataCoverage * rec24.windDataCoverage *
        rec24.butterflyDataCoverage : ℚ) : ℝ) ^ ((1 : ℝ) / 3) ≤ 1 ∧
    ((rec24.tempDataCoverage = 0 ∨ rec24.windDataCoverage = 0 ∨
        rec24.butterflyDataCoverage = 0) →
      ((rec24.tempDataCoverage * rec24.windDataCoverage *
          rec24.butterflyDataCoverage : ℚ) : ℝ) ^ ((1 : ℝ) / 3) = 0) :=
  metricsComplete_geomMean inputs0 [] [] WindowType.h24 rec24 rec24_mem

/-- Concrete application of `diffTransforms_sign_and_zero` to `rec24`
and its `butterfly_diff`. -/
theorem diffTransforms_sign_and_zero_witness :
    (0 < rec24.butterflyDiff →
      0 < ((npSign rec24.butterflyDiff : ℚ) : ℝ) *
        |(rec24.butterflyDiff : ℝ)| ^ ((1 : ℝ) / 3)) ∧
    (rec24.butterflyDiff < 0 →
      ((npSign rec24.butterflyDiff : ℚ) : ℝ) *
        |(rec24.butterflyDiff : ℝ)| ^ ((1 : ℝ) / 3) < 0) ∧
    (((npSign rec24.butterflyDiff : ℚ) : ℝ) *
        |(rec24.butterflyDiff : ℝ)| ^ ((1 : ℝ) / 3) = 0 ↔
      rec24.butterflyDiff = 0) ∧
    (0 < rec24.butterflyDiff →
      0 < ((npSign rec24.butterflyDiff : ℚ) : ℝ) *
        Real.log (|(rec24.butterflyDiff : ℝ)| + 1)) ∧
    (rec24.butterflyDiff < 0 →
      ((npSign rec24.butterflyDiff : ℚ) : ℝ) *
        Real.log (|(rec24.butterflyDiff : ℝ)| + 1) < 0) ∧
    (((npSign rec24.butterflyDiff : ℚ) : ℝ) *
        Real.log (|(rec24.butterflyDiff : ℝ)| + 1) = 0 ↔
      rec24.butterflyDiff = 0) :=
  diffTransforms_sign_and_zero inputs0 [] [] WindowType.h24 rec24 rec24_mem
    rec24.butterflyDiff (List.mem_cons_self _ _)
